import Mathlib

/-!
Shallow embedding of the EmoGo backend's record-ingestion and file-upload
subsystem (`main.py`, `models.py`): pydantic record validation, MongoDB-style
document store operations, and the multipart video-upload pipeline.

Floats are modelled as `Rat`; `datetime` instants as `Nat`; an uploaded byte
stream by its byte count; the MongoDB ObjectId namespace by 24-hex-digit
strings; raised Python exceptions by `Except`.
-/

namespace EmoGo

/-- Caller-visible error taxonomy, as produced by the FastAPI handlers:
`validationError` = 422 pydantic rejection, `invalidIdentifier` = 400
"Invalid ID format", `notFound` = 404, `unsupportedMediaType` = 400
"Invalid file type", `storageError` = 500 "Failed to save file",
`internalError` = unhandled exception escaping the handler (generic 500). -/
inductive ApiError where
  | validationError
  | invalidIdentifier
  | notFound
  | unsupportedMediaType
  | storageError
  | internalError
deriving DecidableEq, Repr

/-- Python exceptions that can be raised inside the `try:` block of the
single-record GET handlers: `bson.errors.InvalidId` from `ObjectId(...)`,
or the `HTTPException(404)` raised when `find_one` returns `None`. -/
inductive PyExc where
  | invalidId
  | httpNotFound
deriving DecidableEq, Repr

/-- The `_id` value of a document as returned to the caller: either the raw
store-native ObjectId or its `str(...)` form. -/
inductive BsonId where
  | oid (hex : String)
  | strId (s : String)
deriving DecidableEq, Repr

/-- Whether a returned `_id` is in string form. -/
def isStrId : BsonId → Bool
  | .strId _ => true
  | .oid _ => false

/-- Hex digit test used by `bson.ObjectId` string parsing. -/
def isHexChar (c : Char) : Bool :=
  c.isDigit || (97 ≤ c.toNat && c.toNat ≤ 102) || (65 ≤ c.toNat && c.toNat ≤ 70)

/-- `ObjectId(s)` succeeds exactly on 24-character hexadecimal strings
(the store's valid identifier syntax). -/
def isValidObjectIdStr (s : String) : Bool :=
  s.length == 24 && s.data.all isHexChar

/-- ASCII lower-casing, character by character (`str.lower()` restricted to
ASCII, which covers hex digits and file extensions). -/
def strLower (s : String) : String := String.mk (s.data.map Char.toLower)

/-- ObjectId equality compares the underlying 12 bytes, so hex strings match
case-insensitively. -/
def oidEq (a b : String) : Bool := strLower a == strLower b

/-- A document as stored in a MongoDB collection: raw ObjectId plus the
kind-specific fields. -/
structure DbDoc (α : Type) where
  oid : String
  fields : α
deriving DecidableEq, Repr

/-- A document as returned by a read endpoint, after the handler rewrote
`doc["_id"]`. -/
structure ApiDoc (α : Type) where
  mongoId : BsonId
  fields : α
deriving DecidableEq, Repr

/-- `doc["_id"] = str(doc["_id"])`: replace the raw ObjectId by its string
form. -/
def stringifyId {α : Type} (e : DbDoc α) : ApiDoc α := ⟨.strId e.oid, e.fields⟩

/-- `collection.find_one({"_id": ObjectId(idStr)})`, given that `idStr`
already parsed. -/
def mongoFindOne {α : Type} (col : List (DbDoc α)) (idStr : String) : Option (DbDoc α) :=
  col.find? (fun e => oidEq e.oid idStr)

/-- The query dict built by the list handlers:
`query = {"user_id": user_id} if user_id else {}` — Python truthiness makes
both `None` and the empty string produce the empty query. -/
def buildQuery (user_id : Option String) : Option String :=
  match user_id with
  | none => none
  | some u => if u == "" then none else some u

/-- `collection.find(query)`: keep the documents matching the (possibly
empty) owner filter. -/
def mongoFilter {α : Type} (ownerOf : α → String) (query : Option String)
    (col : List (DbDoc α)) : List (DbDoc α) :=
  match query with
  | none => col
  | some u => col.filter (fun e => ownerOf e.fields == u)

/-- `cursor.limit(n)`: MongoDB treats `limit(0)` as "no limit"; a negative
argument caps the result at its absolute value. -/
def mongoLimit {α : Type} (n : Int) (col : List (DbDoc α)) : List (DbDoc α) :=
  if n == 0 then col else col.take n.natAbs

/-- Body of the `try:` block shared by the three single-record GET handlers:
parse the id, `find_one`, stringify `_id` on success, raise
`HTTPException(404)` when absent. -/
def getOneTry {α : Type} (col : List (DbDoc α)) (idStr : String) :
    Except PyExc (ApiDoc α) :=
  if isValidObjectIdStr idStr then
    match mongoFindOne col idStr with
    | some e => .ok (stringifyId e)
    | none => .error .httpNotFound
  else .error .invalidId

/-- The full handler: the blanket `except Exception as e:` catches *every*
exception raised in the `try:` block — including the `HTTPException(404)`
raised for a missing document — and re-raises it as the 400
"Invalid ID format" response. -/
def getOneEndpoint {α : Type} (col : List (DbDoc α)) (idStr : String) :
    Except ApiError (ApiDoc α) :=
  match getOneTry col idStr with
  | .ok d => .ok d
  | .error _ => .error .invalidIdentifier

/-- Owner-filtered, limited list read shared by the three list handlers. -/
def listEndpoint {α : Type} (ownerOf : α → String) (col : List (DbDoc α))
    (user_id : Option String) (limit : Int) : List (ApiDoc α) :=
  (mongoLimit limit (mongoFilter ownerOf (buildQuery user_id) col)).map stringifyId

/-! ## Record schemas (`models.py`) -/

/-- Incoming JSON body for `POST /api/vlogs` (the fields of `VlogModel`,
with the caller-optional timestamp still optional). `models.py` declares
`duration: Optional[float] = None` with no range constraint. -/
structure VlogPayload where
  user_id : String
  video_url : String
  title : Option String := none
  description : Option String := none
  timestamp : Option Nat := none
  duration : Option Rat := none
deriving DecidableEq, Repr

/-- A document in the `vlogs` collection. Both `model_dump()` of a
`VlogModel` (file fields absent) and the dict assembled by
`upload_vlog_with_file` (duration absent) are stored here. -/
structure VlogDoc where
  user_id : String
  video_url : String
  download_url : Option String := none
  original_filename : Option String := none
  file_size : Option Nat := none
  title : Option String := none
  description : Option String := none
  timestamp : Nat
  duration : Option Rat := none
deriving DecidableEq, Repr

/-- Incoming JSON body for `POST /api/sentiments` (`SentimentModel`).
`intensity: float = Field(ge=0.0, le=1.0)`. -/
structure SentimentPayload where
  user_id : String
  emotion : String
  intensity : Rat
  note : Option String := none
  timestamp : Option Nat := none
  context : Option String := none
deriving DecidableEq, Repr

/-- A document in the `sentiments` collection. -/
structure SentimentDoc where
  user_id : String
  emotion : String
  intensity : Rat
  note : Option String := none
  timestamp : Nat
  context : Option String := none
deriving DecidableEq, Repr

/-- Incoming JSON body for `POST /api/gps` (`GPSCoordinateModel`).
`latitude: float = Field(ge=-90.0, le=90.0)`,
`longitude: float = Field(ge=-180.0, le=180.0)`. -/
structure GPSPayload where
  user_id : String
  latitude : Rat
  longitude : Rat
  altitude : Option Rat := none
  accuracy : Option Rat := none
  timestamp : Option Nat := none
  location_name : Option String := none
deriving DecidableEq, Repr

/-- A document in the `gps_coordinates` collection. -/
structure GPSDoc where
  user_id : String
  latitude : Rat
  longitude : Rat
  altitude : Option Rat := none
  accuracy : Option Rat := none
  timestamp : Nat
  location_name : Option String := none
deriving DecidableEq, Repr

/-- Pydantic validation of `VlogModel` for a well-typed payload: the model
declares no numeric bounds (in particular none on `duration`), so the only
effect is filling the `default_factory=datetime.utcnow` timestamp. -/
def validateVlog (now : Nat) (p : VlogPayload) : Except ApiError VlogDoc :=
  .ok { user_id := p.user_id, video_url := p.video_url, title := p.title
        description := p.description, timestamp := p.timestamp.getD now
        duration := p.duration }

/-- Pydantic validation of `SentimentModel`: enforce
`Field(ge=0.0, le=1.0)` on `intensity`, fill the default timestamp. -/
def validateSentiment (now : Nat) (p : SentimentPayload) :
    Except ApiError SentimentDoc :=
  if 0 ≤ p.intensity ∧ p.intensity ≤ 1 then
    .ok { user_id := p.user_id, emotion := p.emotion, intensity := p.intensity
          note := p.note, timestamp := p.timestamp.getD now, context := p.context }
  else .error .validationError

/-- Pydantic validation of `GPSCoordinateModel`: enforce the latitude and
longitude bounds, fill the default timestamp. -/
def validateGPS (now : Nat) (p : GPSPayload) : Except ApiError GPSDoc :=
  if (-90 ≤ p.latitude ∧ p.latitude ≤ 90) ∧
     (-180 ≤ p.longitude ∧ p.longitude ≤ 180) then
    .ok { user_id := p.user_id, latitude := p.latitude, longitude := p.longitude
          altitude := p.altitude, accuracy := p.accuracy
          timestamp := p.timestamp.getD now, location_name := p.location_name }
  else .error .validationError

/-- Boolean success test for `Except`. -/
def isOkE {ε α : Type} : Except ε α → Bool
  | .ok _ => true
  | .error _ => false

/-! ## Create endpoints -/

/-- `POST /api/vlogs`: FastAPI runs pydantic validation, then the handler
does `insert_one(vlog.model_dump())` and returns `str(result.inserted_id)`.
`freshOid` is the ObjectId the store assigns. Returns the response together
with the updated collection. -/
def create_vlog (now : Nat) (freshOid : String) (col : List (DbDoc VlogDoc))
    (p : VlogPayload) : Except ApiError String × List (DbDoc VlogDoc) :=
  match validateVlog now p with
  | .error e => (.error e, col)
  | .ok d => (.ok freshOid, col ++ [⟨freshOid, d⟩])

/-- `POST /api/sentiments`. -/
def create_sentiment (now : Nat) (freshOid : String)
    (col : List (DbDoc SentimentDoc)) (p : SentimentPayload) :
    Except ApiError String × List (DbDoc SentimentDoc) :=
  match validateSentiment now p with
  | .error e => (.error e, col)
  | .ok d => (.ok freshOid, col ++ [⟨freshOid, d⟩])

/-- `POST /api/gps`. -/
def create_gps_coordinate (now : Nat) (freshOid : String)
    (col : List (DbDoc GPSDoc)) (p : GPSPayload) :
    Except ApiError String × List (DbDoc GPSDoc) :=
  match validateGPS now p with
  | .error e => (.error e, col)
  | .ok d => (.ok freshOid, col ++ [⟨freshOid, d⟩])

/-! ## Read endpoints -/

/-- `GET /api/vlogs`. -/
def get_vlogs (col : List (DbDoc VlogDoc)) (user_id : Option String := none)
    (limit : Int := 100) : List (ApiDoc VlogDoc) :=
  listEndpoint VlogDoc.user_id col user_id limit

/-- `GET /api/vlogs/{vlog_id}`. -/
def get_vlog (col : List (DbDoc VlogDoc)) (vlog_id : String) :
    Except ApiError (ApiDoc VlogDoc) :=
  getOneEndpoint col vlog_id

/-- `GET /api/sentiments`. -/
def get_sentiments (col : List (DbDoc SentimentDoc))
    (user_id : Option String := none) (limit : Int := 100) :
    List (ApiDoc SentimentDoc) :=
  listEndpoint SentimentDoc.user_id col user_id limit

/-- `GET /api/sentiments/{sentiment_id}`. -/
def get_sentiment (col : List (DbDoc SentimentDoc)) (sentiment_id : String) :
    Except ApiError (ApiDoc SentimentDoc) :=
  getOneEndpoint col sentiment_id

/-- `GET /api/gps`. -/
def get_gps_coordinates (col : List (DbDoc GPSDoc))
    (user_id : Option String := none) (limit : Int := 100) :
    List (ApiDoc GPSDoc) :=
  listEndpoint GPSDoc.user_id col user_id limit

/-- `GET /api/gps/{gps_id}`. -/
def get_gps_coordinate (col : List (DbDoc GPSDoc)) (gps_id : String) :
    Except ApiError (ApiDoc GPSDoc) :=
  getOneEndpoint col gps_id

/-- Result shape of `GET /api/export/all`. -/
structure ExportResult where
  total_vlogs : Nat
  total_sentiments : Nat
  total_gps_coordinates : Nat
  vlogs : List (ApiDoc VlogDoc)
  sentiments : List (ApiDoc SentimentDoc)
  gps_coordinates : List (ApiDoc GPSDoc)
deriving DecidableEq, Repr

/-- `GET /api/export/all`: unfiltered, unlimited `find()` over the three
collections, stringifying every `_id`. -/
def export_all_data (vs : List (DbDoc VlogDoc)) (ss : List (DbDoc SentimentDoc))
    (gs : List (DbDoc GPSDoc)) : ExportResult :=
  let v := vs.map stringifyId
  let s := ss.map stringifyId
  let g := gs.map stringifyId
  ⟨v.length, s.length, g.length, v, s, g⟩

/-! ## File upload pipeline (`upload_vlog_with_file`) -/

/-- The last path component, as `pathlib.Path(...).name` on POSIX
(trailing slashes are dropped first, as `pathlib` normalizes them away). -/
def lastComponent (s : String) : String :=
  let r := s.data.reverse.dropWhile (fun c => c == '/')
  String.mk (r.takeWhile (fun c => c != '/')).reverse

/-- `pathlib`'s suffix rule on a file name: the substring from the last dot,
provided that dot is neither the first nor the last character
(`Path(".txt").suffix == ""`, `Path("a.").suffix == ""`). Computed on the
reversed character list: `pre` is the run of characters after the last dot,
`rest` what precedes that dot. -/
def pySuffix (name : String) : String :=
  let r := name.data.reverse
  let pre := r.takeWhile (fun c => c != '.')
  let rest := r.drop (pre.length + 1)
  if pre.length == r.length then ""
  else if pre.isEmpty then ""
  else if rest.isEmpty then ""
  else String.mk ('.' :: pre.reverse)

/-- `file_ext = Path(video.filename).suffix.lower()`. -/
def fileExt (filename : String) : String := strLower (pySuffix (lastComponent filename))

/-- `allowed_extensions = {".mp4", ".avi", ".mov", ".mkv", ".webm", ".m4v"}`. -/
def allowed_extensions : List String := [".mp4", ".avi", ".mov", ".mkv", ".webm", ".m4v"]

/-- `unique_filename = f"{uuid.uuid4()}{file_ext}"` — the storage name is the
freshly drawn uuid4 string followed by the lower-cased extension; the
client-supplied base name never contributes. -/
def storageName (u : String) (filename : String) : String := u ++ fileExt filename

/-- The videos directory as a name → byte-count map. -/
structure FS where
  files : List (String × Nat)
deriving DecidableEq, Repr

/-- `open("wb")` truncates any existing file of that name and the write
leaves `size` bytes on disk. -/
def fsWrite (fs : FS) (name : String) (size : Nat) : FS :=
  ⟨(name, size) :: fs.files.filter (fun e => e.1 != name)⟩

/-- Is a file of this name addressable in storage (via the `/uploads` static
mount or the download endpoint), and how many bytes does it hold? -/
def fsGet (fs : FS) (name : String) : Option Nat :=
  (fs.files.find? (fun e => e.1 == name)).map (fun e => e.2)

/-- Outcome of `shutil.copyfileobj` for one attempt: either the whole stream
is written, or an I/O error strikes after `bytesWritten` bytes. -/
inductive WriteOutcome where
  | success
  | failAfter (bytesWritten : Nat)
deriving DecidableEq, Repr

/-- Nondeterministic inputs of one upload attempt: the uuid4 draw, the
current clock, whether the blob write fails mid-stream, and whether
`insert_one` raises. -/
structure UploadEnv where
  uuidStr : String
  now : Nat
  writeOutcome : WriteOutcome
  insertFails : Bool
deriving DecidableEq, Repr

/-- Successful response body of `POST /api/vlogs/upload`. -/
structure UploadOk where
  id : String
  video_url : String
  download_url : String
  file_size : Nat
deriving DecidableEq, Repr

/-- `POST /api/vlogs/upload`, the full pipeline of `upload_vlog_with_file`:

1. extension allow-list check, *before* any disk write;
2. `file_path.open("wb"); shutil.copyfileobj(...)` — on an I/O error the
   `except` branch raises the 500 response without deleting the partial
   file, so `bytesWritten` bytes remain on disk under the allocated name;
3. document assembly and `insert_one`; an `insert_one` failure is not
   caught anywhere (generic 500), leaving the fully written blob behind.

Returns the response, the resulting videos directory and the resulting
`vlogs` collection. -/
def upload_vlog_with_file (env : UploadEnv) (freshOid : String) (fs : FS)
    (col : List (DbDoc VlogDoc)) (user_id : String) (filename : String)
    (contentSize : Nat) (title description : Option String) :
    Except ApiError UploadOk × FS × List (DbDoc VlogDoc) :=
  let file_ext := fileExt filename
  if allowed_extensions.contains file_ext then
    let unique_filename := storageName env.uuidStr filename
    match env.writeOutcome with
    | .failAfter k => (.error .storageError, fsWrite fs unique_filename k, col)
    | .success =>
      let fs' := fsWrite fs unique_filename contentSize
      let video_url := "/uploads/videos/" ++ unique_filename
      let download_url := "/api/vlogs/download/" ++ unique_filename
      let doc : VlogDoc :=
        { user_id := user_id, video_url := video_url
          download_url := some download_url
          original_filename := some filename, file_size := some contentSize
          title := title, description := description, timestamp := env.now }
      if env.insertFails then (.error .internalError, fs', col)
      else (.ok ⟨freshOid, video_url, download_url, contentSize⟩, fs',
            col ++ [⟨freshOid, doc⟩])
  else (.error .unsupportedMediaType, fs, col)

/-- Two sequential upload attempts against the same videos directory and
collection, both using the same client-supplied filename `f`; returns the
final directory and collection. -/
def twoUploads (env1 env2 : UploadEnv) (o1 o2 : String) (fs : FS)
    (col : List (DbDoc VlogDoc)) (uid1 uid2 f : String) (sz1 sz2 : Nat) :
    FS × List (DbDoc VlogDoc) :=
  let r1 := upload_vlog_with_file env1 o1 fs col uid1 f sz1 none none
  let r2 := upload_vlog_with_file env2 o2 r1.2.1 r1.2.2 uid2 f sz2 none none
  (r2.2.1, r2.2.2)

/-- Does every document of an endpoint response carry a string-form `_id`? -/
def allStrIds {α : Type} (l : List (ApiDoc α)) : Bool :=
  l.all (fun d => isStrId d.mongoId)

/-! ## Helper lemmas -/

theorem strApp_left_inj (a b c d : String) (hl : a.length = c.length)
    (h : a ++ b = c ++ d) : a = c := by
  have hd : a.data ++ b.data = c.data ++ d.data := by
    simpa using congrArg String.data h
  have h2 : a.data = c.data := (List.append_inj hd hl).1
  cases a; cases c; simp_all

theorem oidEq_refl (a : String) : oidEq a a = true := by
  simp [oidEq]

theorem fsGet_fsWrite_self (fs : FS) (n : String) (s : Nat) :
    fsGet (fsWrite fs n s) n = some s := by
  simp [fsGet, fsWrite, List.find?]

theorem find?_filter_ne (l : List (String × Nat)) (n m : String) (h : m ≠ n) :
    (l.filter (fun e => e.1 != n)).find? (fun e => e.1 == m)
      = l.find? (fun e => e.1 == m) := by
  induction l with
  | nil => rfl
  | cons e t ih =>
    by_cases he : e.1 = n
    · have hm : (e.1 == m) = false := by
        simp [he]
        exact fun hc => h hc.symm
      have hne : (e.1 != n) = false := by simp [he]
      simp [List.filter, hne, List.find?, hm, ih]
    · simp only [List.filter, List.find?]
      have : (e.1 != n) = true := by simpa using he
      rw [this]
      simp only [List.find?]
      cases hc : (e.1 == m) with
      | true => rfl
      | false => exact ih

theorem fsGet_fsWrite_ne (fs : FS) (n m : String) (s : Nat) (h : m ≠ n) :
    fsGet (fsWrite fs n s) m = fsGet fs m := by
  have hm : (n == m) = false := by
    simp
    exact fun hc => h hc.symm
  simp [fsGet, fsWrite, List.find?, hm, find?_filter_ne fs.files n m h]

theorem mongoFindOne_append_fresh {α : Type} (col : List (DbDoc α))
    (idv : String) (d : α)
    (h : col.all (fun e => !(oidEq e.oid idv)) = true) :
    mongoFindOne (col ++ [⟨idv, d⟩]) idv = some ⟨idv, d⟩ := by
  induction col with
  | nil => simp [mongoFindOne, List.find?, oidEq_refl]
  | cons e t ih =>
    simp only [List.all_cons, Bool.and_eq_true, Bool.not_eq_true'] at h
    simp only [List.cons_append, mongoFindOne, List.find?, h.1]
    exact ih h.2

/-! ## Claim theorems -/

/-- C1: the spec says `find_one` must distinguish `InvalidIdentifier`
(malformed id) from `NotFound` (well-formed id, no document); the handlers
even raise `HTTPException(404)` for the absent case, showing that intent —
but that raise sits inside the `try:` block, so the blanket
`except Exception` catches it and re-raises it as the 400
"Invalid ID format" response. Evaluating the code at a syntactically valid,
unassigned id: both record kinds answer `invalidIdentifier`, conflating the
two failure modes (and the malformed-id case answers the same error). -/
theorem C1_notfound_conflated_with_invalid_id :
    isValidObjectIdStr "0123456789abcdef01234567" = true ∧
    get_vlog ([] : List (DbDoc VlogDoc)) "0123456789abcdef01234567"
      = .error .invalidIdentifier ∧
    get_sentiment ([] : List (DbDoc SentimentDoc)) "0123456789abcdef01234567"
      = .error .invalidIdentifier ∧
    get_vlog ([] : List (DbDoc VlogDoc)) "not-an-id"
      = .error .invalidIdentifier :=
  ⟨by decide, rfl, rfl, rfl⟩

/-- C3 counterexample: `VlogModel` declares `duration: Optional[float] = None`
with no `ge=0` bound, so a payload with `duration = -1` passes validation and
`create_vlog` persists it — nothing rejects a negative duration. -/
theorem C3_counterexample :
    validateVlog 0
        { user_id := "u1", video_url := "http://v", duration := some (-1) }
      = .ok { user_id := "u1", video_url := "http://v", timestamp := 0,
              duration := some (-1) } ∧
    (create_vlog 0 "aaaaaaaaaaaaaaaaaaaaaaaa" []
        { user_id := "u1", video_url := "http://v", duration := some (-1) }).2
      = [⟨"aaaaaaaaaaaaaaaaaaaaaaaa",
          { user_id := "u1", video_url := "http://v", timestamp := 0,
            duration := some (-1) }⟩] :=
  ⟨rfl, rfl⟩

/-- C3 amended: the optional `duration` field is not range-checked at all —
every well-typed vlog payload is accepted, and the submitted duration
(negative ones included) is persisted unchanged. -/
theorem C3_amended (now : Nat) (freshOid : String) (col : List (DbDoc VlogDoc))
    (p : VlogPayload) :
    (create_vlog now freshOid col p).1 = .ok freshOid ∧
    (create_vlog now freshOid col p).2
      = col ++ [⟨freshOid,
          { user_id := p.user_id, video_url := p.video_url, title := p.title,
            description := p.description, timestamp := p.timestamp.getD now,
            duration := p.duration }⟩] := by
  simp [create_vlog, validateVlog]

/-- C9: in all three list handlers the query is built by
`{"user_id": user_id} if user_id else {}`, and the empty string is falsy in
Python — so supplying `user_id=""` is identical to supplying no filter:
every document in the collection (up to the limit) is returned. -/
theorem C9_empty_owner_filter_dropped (vc : List (DbDoc VlogDoc))
    (sc : List (DbDoc SentimentDoc)) (gc : List (DbDoc GPSDoc)) (lim : Int) :
    get_vlogs vc (some "") lim = get_vlogs vc none lim ∧
    get_sentiments sc (some "") lim = get_sentiments sc none lim ∧
    get_gps_coordinates gc (some "") lim = get_gps_coordinates gc none lim ∧
    get_vlogs vc (some "") lim = (mongoLimit lim vc).map stringifyId := by
  refine ⟨rfl, rfl, rfl, ?_⟩
  simp [get_vlogs, listEndpoint, buildQuery, mongoFilter]

/-- C4: `upload_vlog_with_file` checks the client filename's lower-cased
extension against `{.mp4, .avi, .mov, .mkv, .webm, .m4v}` before anything
else: a filename outside the allow-list is rejected with
`UnsupportedMediaType` and the videos directory and the vlog collection are
returned untouched (no disk write, no document); a filename inside the
allow-list is never rejected with `UnsupportedMediaType`. -/
theorem C4_extension_allowlist (env : UploadEnv) (freshOid : String) (fs : FS)
    (col : List (DbDoc VlogDoc)) (uid f : String) (sz : Nat)
    (t d : Option String) :
    (allowed_extensions.contains (fileExt f) = false →
      upload_vlog_with_file env freshOid fs col uid f sz t d
        = (.error .unsupportedMediaType, fs, col)) ∧
    (allowed_extensions.contains (fileExt f) = true →
      (upload_vlog_with_file env freshOid fs col uid f sz t d).1
        ≠ .error .unsupportedMediaType) := by
  constructor
  · intro h
    have h' : fileExt f ∉ allowed_extensions := by simpa using h
    simp [upload_vlog_with_file, h']
  · intro h
    have h' : fileExt f ∈ allowed_extensions := by simpa using h
    cases hw : env.writeOutcome with
    | failAfter k => simp [upload_vlog_with_file, h', hw]
    | success =>
      cases hi : env.insertFails <;>
        simp [upload_vlog_with_file, h', hw, hi]

/-- C4 witness: a `.txt` upload is rejected with no state change; a `.MOV`
upload (lower-cased to an allow-listed extension) is not rejected for its
media type. -/
theorem C4_extension_allowlist_witness :
    upload_vlog_with_file ⟨"w-uuid", 0, .success, false⟩
        "aaaaaaaaaaaaaaaaaaaaaaaa" ⟨[]⟩ [] "u" "note.txt" 5 none none
      = (.error .unsupportedMediaType, ⟨[]⟩, []) ∧
    (upload_vlog_with_file ⟨"w-uuid", 0, .success, false⟩
        "aaaaaaaaaaaaaaaaaaaaaaaa" ⟨[]⟩ [] "u" "CLIP.MOV" 5 none none).1
      ≠ .error .unsupportedMediaType :=
  ⟨(C4_extension_allowlist ⟨"w-uuid", 0, .success, false⟩
      "aaaaaaaaaaaaaaaaaaaaaaaa" ⟨[]⟩ [] "u" "note.txt" 5 none none).1
      (by decide),
   (C4_extension_allowlist ⟨"w-uuid", 0, .success, false⟩
      "aaaaaaaaaaaaaaaaaaaaaaaa" ⟨[]⟩ [] "u" "CLIP.MOV" 5 none none).2
      (by decide)⟩

/-- C2 counterexample: a vlog upload whose blob write fails after 3 of 10
bytes reports `StorageError` and creates no document — but the `except`
branch does not delete the file, so a 3-byte partial blob remains
addressable under the allocated name, contradicting "the partial file is
removed before the failure is reported". -/
theorem C2_counterexample :
    (upload_vlog_with_file ⟨"u-uuid", 0, .failAfter 3, false⟩
        "aaaaaaaaaaaaaaaaaaaaaaaa" ⟨[]⟩ [] "user1" "clip.mp4" 10 none none).1
      = .error .storageError ∧
    (upload_vlog_with_file ⟨"u-uuid", 0, .failAfter 3, false⟩
        "aaaaaaaaaaaaaaaaaaaaaaaa" ⟨[]⟩ [] "user1" "clip.mp4" 10 none none).2.2
      = [] ∧
    fsGet (upload_vlog_with_file ⟨"u-uuid", 0, .failAfter 3, false⟩
        "aaaaaaaaaaaaaaaaaaaaaaaa" ⟨[]⟩ [] "user1" "clip.mp4" 10 none
        none).2.1 "u-uuid.mp4"
      = some 3 :=
  ⟨rfl, rfl, rfl⟩

/-- C2 amended: on any failing upload step no document is created in the
vlog collection, but the file written during the attempt is *not* removed:
a mid-write I/O failure reports `StorageError` and leaves the partial file
addressable under the allocated storage name, and an `insert_one` failure
after a complete blob write leaves the whole blob addressable. -/
theorem C2_upload_failure_state (env : UploadEnv) (freshOid : String)
    (fs : FS) (col : List (DbDoc VlogDoc)) (uid f : String) (sz k : Nat)
    (t d : Option String)
    (hext : allowed_extensions.contains (fileExt f) = true) :
    (env.writeOutcome = .failAfter k →
      (upload_vlog_with_file env freshOid fs col uid f sz t d).1
          = .error .storageError ∧
      (upload_vlog_with_file env freshOid fs col uid f sz t d).2.2 = col ∧
      fsGet (upload_vlog_with_file env freshOid fs col uid f sz t d).2.1
          (storageName env.uuidStr f) = some k) ∧
    (env.writeOutcome = .success → env.insertFails = true →
      (upload_vlog_with_file env freshOid fs col uid f sz t d).1
          = .error .internalError ∧
      (upload_vlog_with_file env freshOid fs col uid f sz t d).2.2 = col ∧
      fsGet (upload_vlog_with_file env freshOid fs col uid f sz t d).2.1
          (storageName env.uuidStr f) = some sz) := by
  have h' : fileExt f ∈ allowed_extensions := by simpa using hext
  constructor
  · intro hw
    simp [upload_vlog_with_file, h', hw, fsGet_fsWrite_self]
  · intro hw hi
    simp [upload_vlog_with_file, h', hw, hi, fsGet_fsWrite_self]

/-- C2 witness: the amended statement at a concrete mid-write failure —
3 bytes of a 10-byte `clip.mp4` upload land on disk, the request fails with
`StorageError`, no document is created, and the partial blob stays
addressable. -/
theorem C2_upload_failure_state_witness :
    allowed_extensions.contains (fileExt "clip.mp4") = true ∧
    ((upload_vlog_with_file ⟨"u2-uuid", 0, .failAfter 3, false⟩
        "bbbbbbbbbbbbbbbbbbbbbbbb" ⟨[]⟩ [] "user1" "clip.mp4" 10 none none).1
      = .error .storageError ∧
    (upload_vlog_with_file ⟨"u2-uuid", 0, .failAfter 3, false⟩
        "bbbbbbbbbbbbbbbbbbbbbbbb" ⟨[]⟩ [] "user1" "clip.mp4" 10 none none).2.2
      = [] ∧
    fsGet (upload_vlog_with_file ⟨"u2-uuid", 0, .failAfter 3, false⟩
        "bbbbbbbbbbbbbbbbbbbbbbbb" ⟨[]⟩ [] "user1" "clip.mp4" 10 none
        none).2.1 (storageName "u2-uuid" "clip.mp4")
      = some 3) :=
  ⟨by decide,
   (C2_upload_failure_state ⟨"u2-uuid", 0, .failAfter 3, false⟩
      "bbbbbbbbbbbbbbbbbbbbbbbb" ⟨[]⟩ [] "user1" "clip.mp4" 10 3 none none
      (by decide)).1 rfl⟩

theorem mem_of_mem_mongoLimit {α : Type} (n : Int) (l : List (DbDoc α))
    (e : DbDoc α) (h : e ∈ mongoLimit n l) : e ∈ l := by
  unfold mongoLimit at h
  split at h
  · exact h
  · exact List.mem_of_mem_take h

theorem allStrIds_map_stringifyId {α : Type} (l : List (DbDoc α)) :
    allStrIds (l.map stringifyId) = true := by
  induction l with
  | nil => rfl
  | cons e t ih =>
    simp only [List.map_cons, allStrIds, List.all_cons, Bool.and_eq_true] at ih ⊢
    exact ⟨rfl, ih⟩

theorem getOneEndpoint_ok_strId {α : Type} (col : List (DbDoc α)) (s : String)
    (d : ApiDoc α) (h : getOneEndpoint col s = .ok d) :
    isStrId d.mongoId = true := by
  cases hv : isValidObjectIdStr s with
  | false => simp [getOneEndpoint, getOneTry, hv] at h
  | true =>
    cases hm : mongoFindOne col s with
    | none => simp [getOneEndpoint, getOneTry, hv, hm] at h
    | some e =>
      simp [getOneEndpoint, getOneTry, hv, hm] at h
      subst h
      rfl

/-- C5: the storage name of an uploaded blob is the freshly drawn uuid4
string followed by the lower-cased extension. Two sequential uploads with
the *same* client filename but distinct (equal-length) uuid draws get
distinct storage names, and after both uploads both blobs are addressable
with their own sizes (no overwrite); the storage name depends only on the
uuid and the extension (any base name with the same extension yields the
same storage name); the client filename is retained only as the
`original_filename` metadata field of the stored documents. -/
theorem C5_collision_free_storage_names (env1 env2 : UploadEnv) (o1 o2 : String)
    (fs : FS) (col : List (DbDoc VlogDoc)) (uid1 uid2 f g : String)
    (sz1 sz2 : Nat)
    (hw1 : env1.writeOutcome = .success) (hi1 : env1.insertFails = false)
    (hw2 : env2.writeOutcome = .success) (hi2 : env2.insertFails = false)
    (hlen : env1.uuidStr.length = env2.uuidStr.length)
    (hne : env1.uuidStr ≠ env2.uuidStr)
    (hext : allowed_extensions.contains (fileExt f) = true)
    (hg : fileExt g = fileExt f) :
    storageName env1.uuidStr f ≠ storageName env2.uuidStr f ∧
    fsGet (twoUploads env1 env2 o1 o2 fs col uid1 uid2 f sz1 sz2).1
        (storageName env1.uuidStr f) = some sz1 ∧
    fsGet (twoUploads env1 env2 o1 o2 fs col uid1 uid2 f sz1 sz2).1
        (storageName env2.uuidStr f) = some sz2 ∧
    storageName env1.uuidStr g = storageName env1.uuidStr f ∧
    (twoUploads env1 env2 o1 o2 fs col uid1 uid2 f sz1 sz2).2.map
        (fun e => e.fields.original_filename)
      = col.map (fun e => e.fields.original_filename) ++ [some f, some f] := by
  have h' : fileExt f ∈ allowed_extensions := by simpa using hext
  have hneq : storageName env1.uuidStr f ≠ storageName env2.uuidStr f := by
    intro hcontra
    exact hne (strApp_left_inj _ _ _ _ hlen hcontra)
  have hfs : (twoUploads env1 env2 o1 o2 fs col uid1 uid2 f sz1 sz2).1
      = fsWrite (fsWrite fs (storageName env1.uuidStr f) sz1)
          (storageName env2.uuidStr f) sz2 := by
    simp [twoUploads, upload_vlog_with_file, h', hw1, hi1, hw2, hi2]
  refine ⟨hneq, ?_, ?_, ?_, ?_⟩
  · rw [hfs, fsGet_fsWrite_ne _ _ _ _ hneq, fsGet_fsWrite_self]
  · rw [hfs, fsGet_fsWrite_self]
  · simp [storageName, hg]
  · simp [twoUploads, upload_vlog_with_file, h', hw1, hi1, hw2, hi2]

/-- C5 witness: two concrete uploads of `clip.mp4` under distinct uuid
draws — distinct storage names, the first blob still addressable after the
second upload, and a different base name with the same extension maps to
the same storage name. -/
theorem C5_collision_free_storage_names_witness :
    storageName "11111111-1111-1111-1111-111111111111" "clip.mp4"
      ≠ storageName "22222222-2222-2222-2222-222222222222" "clip.mp4" ∧
    fsGet (twoUploads ⟨"11111111-1111-1111-1111-111111111111", 0, .success, false⟩
        ⟨"22222222-2222-2222-2222-222222222222", 0, .success, false⟩
        "aaaaaaaaaaaaaaaaaaaaaaaa" "bbbbbbbbbbbbbbbbbbbbbbbb" ⟨[]⟩ [] "u1" "u2"
        "clip.mp4" 5 7).1
        (storageName "11111111-1111-1111-1111-111111111111" "clip.mp4")
      = some 5 ∧
    storageName "11111111-1111-1111-1111-111111111111" "video2.MP4"
      = storageName "11111111-1111-1111-1111-111111111111" "clip.mp4" := by
  have h := C5_collision_free_storage_names
      ⟨"11111111-1111-1111-1111-111111111111", 0, .success, false⟩
      ⟨"22222222-2222-2222-2222-222222222222", 0, .success, false⟩
      "aaaaaaaaaaaaaaaaaaaaaaaa" "bbbbbbbbbbbbbbbbbbbbbbbb" ⟨[]⟩ [] "u1" "u2"
      "clip.mp4" "video2.MP4" 5 7 rfl rfl rfl rfl (by decide) (by decide)
      (by decide) (by decide)
  exact ⟨h.1, h.2.1, h.2.2.2.1⟩

/-- C6: pydantic range validation is boundary-inclusive and gates
persistence: a sentiment payload passes iff `0 ≤ intensity ≤ 1`, a GPS
payload passes iff `-90 ≤ latitude ≤ 90` and `-180 ≤ longitude ≤ 180`;
out-of-range payloads produce `ValidationError` and leave the collection
untouched, and every document a create call leaves in the collection is
either pre-existing or within range. -/
theorem C6_numeric_bounds_inclusive (now : Nat) (oid : String)
    (p : SentimentPayload) (q : GPSPayload)
    (scol : List (DbDoc SentimentDoc)) (gcol : List (DbDoc GPSDoc)) :
    (isOkE (validateSentiment now p) = true
      ↔ (0 ≤ p.intensity ∧ p.intensity ≤ 1)) ∧
    (¬(0 ≤ p.intensity ∧ p.intensity ≤ 1) →
      validateSentiment now p = .error .validationError ∧
      (create_sentiment now oid scol p).2 = scol) ∧
    (isOkE (validateGPS now q) = true
      ↔ ((-90 ≤ q.latitude ∧ q.latitude ≤ 90) ∧
         (-180 ≤ q.longitude ∧ q.longitude ≤ 180))) ∧
    (¬((-90 ≤ q.latitude ∧ q.latitude ≤ 90) ∧
       (-180 ≤ q.longitude ∧ q.longitude ≤ 180)) →
      validateGPS now q = .error .validationError ∧
      (create_gps_coordinate now oid gcol q).2 = gcol) ∧
    (∀ e, e ∈ (create_sentiment now oid scol p).2 →
      e ∈ scol ∨ (0 ≤ e.fields.intensity ∧ e.fields.intensity ≤ 1)) ∧
    (∀ e, e ∈ (create_gps_coordinate now oid gcol q).2 →
      e ∈ gcol ∨ ((-90 ≤ e.fields.latitude ∧ e.fields.latitude ≤ 90) ∧
                  (-180 ≤ e.fields.longitude ∧ e.fields.longitude ≤ 180))) := by
  refine ⟨?_, ?_, ?_, ?_, ?_, ?_⟩
  · by_cases h : 0 ≤ p.intensity ∧ p.intensity ≤ 1 <;>
      simp [validateSentiment, isOkE, h]
  · intro h
    constructor <;> simp [validateSentiment, create_sentiment, h]
  · by_cases h : (-90 ≤ q.latitude ∧ q.latitude ≤ 90) ∧
        (-180 ≤ q.longitude ∧ q.longitude ≤ 180) <;>
      simp [validateGPS, isOkE, h]
  · intro h
    constructor <;> simp [validateGPS, create_gps_coordinate, h]
  · intro e he
    by_cases h : 0 ≤ p.intensity ∧ p.intensity ≤ 1
    · simp [create_sentiment, validateSentiment, h] at he
      rcases he with he | he
      · exact Or.inl he
      · subst he
        exact Or.inr h
    · simp [create_sentiment, validateSentiment, h] at he
      exact Or.inl he
  · intro e he
    by_cases h : (-90 ≤ q.latitude ∧ q.latitude ≤ 90) ∧
        (-180 ≤ q.longitude ∧ q.longitude ≤ 180)
    · simp [create_gps_coordinate, validateGPS, h] at he
      rcases he with he | he
      · exact Or.inl he
      · subst he
        exact Or.inr h
    · simp [create_gps_coordinate, validateGPS, h] at he
      exact Or.inl he

/-- C6 witness: boundary values are accepted (`intensity = 1`,
`latitude = -90`, `longitude = 180`) and out-of-range values are rejected
with `ValidationError` (`intensity = 2`, `latitude = 91`). -/
theorem C6_numeric_bounds_inclusive_witness :
    isOkE (validateSentiment 3
        { user_id := "u", emotion := "happy", intensity := 1 }) = true ∧
    isOkE (validateGPS 3
        { user_id := "u", latitude := -90, longitude := 180 }) = true ∧
    validateSentiment 3 { user_id := "u", emotion := "sad", intensity := 2 }
      = .error .validationError ∧
    validateGPS 3 { user_id := "u", latitude := 91, longitude := 0 }
      = .error .validationError := by
  have h1 := C6_numeric_bounds_inclusive 3 "dddddddddddddddddddddddd"
      { user_id := "u", emotion := "happy", intensity := 1 }
      { user_id := "u", latitude := -90, longitude := 180 } [] []
  have h2 := C6_numeric_bounds_inclusive 3 "dddddddddddddddddddddddd"
      { user_id := "u", emotion := "sad", intensity := 2 }
      { user_id := "u", latitude := 91, longitude := 0 } [] []
  exact ⟨h1.1.mpr (by decide), h1.2.2.1.mpr (by decide),
    (h2.2.1 (by decide)).1, (h2.2.2.2.1 (by decide)).1⟩

/-- C7 counterexample: with `limit=0` (which the handler passes straight to
the store, where it means "no limit") and the empty string as the owner
filter (which Python truthiness drops), the query over a one-document
collection returns that document — more than 0 documents, and its owner id
`"u1"` differs from the supplied filter value `""`. -/
theorem C7_counterexample :
    get_vlogs [⟨"aaaaaaaaaaaaaaaaaaaaaaaa",
        { user_id := "u1", video_url := "v", timestamp := 0 }⟩] (some "") 0
      = [⟨.strId "aaaaaaaaaaaaaaaaaaaaaaaa",
          { user_id := "u1", video_url := "v", timestamp := 0 }⟩] ∧
    (get_vlogs [⟨"aaaaaaaaaaaaaaaaaaaaaaaa",
        { user_id := "u1", video_url := "v", timestamp := 0 }⟩]
        (some "") 0).length = 1 :=
  ⟨rfl, rfl⟩

/-- C7 amended: for every *nonzero* limit N the result holds at most |N|
documents (N defaults to 100; `limit=0` is forwarded to the store, which
treats it as no limit); when a *non-empty* owner-id filter is supplied,
every returned document's owner id equals it exactly (case-sensitively);
omitting the filter returns all documents up to the limit. -/
theorem C7_list_query_bounds (col : List (DbDoc VlogDoc))
    (uidOpt : Option String) (lim : Int) (u : String) :
    (lim ≠ 0 → (get_vlogs col uidOpt lim).length ≤ lim.natAbs) ∧
    (get_vlogs col uidOpt).length ≤ 100 ∧
    (u ≠ "" → ∀ d, d ∈ get_vlogs col (some u) lim → d.fields.user_id = u) ∧
    get_vlogs col none lim = (mongoLimit lim col).map stringifyId := by
  refine ⟨?_, ?_, ?_, rfl⟩
  · intro h
    have h0 : (lim == 0) = false := by simpa using h
    simp only [get_vlogs, listEndpoint, mongoLimit, h0, Bool.false_eq_true,
      if_false, List.length_map]
    exact List.length_take_le _ _
  · have h100 : ((100 : Int) == 0) = false := by decide
    simp only [get_vlogs, listEndpoint, mongoLimit, h100, Bool.false_eq_true,
      if_false, List.length_map]
    exact List.length_take_le _ _
  · intro hu d hd
    have hq : buildQuery (some u) = some u := by simp [buildQuery, hu]
    simp only [get_vlogs, listEndpoint, hq, List.mem_map] at hd
    obtain ⟨e, he, rfl⟩ := hd
    have h1 : e ∈ mongoFilter VlogDoc.user_id (some u) col :=
      mem_of_mem_mongoLimit _ _ _ he
    have h2 : e ∈ col.filter (fun x => x.fields.user_id == u) := h1
    have h3 := List.of_mem_filter h2
    exact eq_of_beq h3

/-- C7 witness: a single-document collection queried with `limit=2` and its
owner id as the filter stays within the limit bound. -/
theorem C7_list_query_bounds_witness :
    ((2 : Int) ≠ 0) ∧
    (get_vlogs [⟨"cccccccccccccccccccccccc",
        { user_id := "u1", video_url := "v", timestamp := 0 }⟩]
        (some "u1") 2).length ≤ (2 : Int).natAbs :=
  ⟨by decide,
   (C7_list_query_bounds [⟨"cccccccccccccccccccccccc",
      { user_id := "u1", video_url := "v", timestamp := 0 }⟩]
      (some "u1") 2 "u1").1 (by decide)⟩

/-- C8: round-trip — a valid sentiment payload created with a fresh, valid
store id is immediately retrievable via the single-record GET with the
returned id, and the retrieved document carries exactly the submitted
fields, with the timestamp defaulting to the server clock when the
submission omitted one. -/
theorem C8_create_then_find_one (now : Nat) (oid : String)
    (col : List (DbDoc SentimentDoc)) (p : SentimentPayload)
    (hoid : isValidObjectIdStr oid = true)
    (hfresh : col.all (fun e => !(oidEq e.oid oid)) = true)
    (hrange : 0 ≤ p.intensity ∧ p.intensity ≤ 1) :
    (create_sentiment now oid col p).1 = .ok oid ∧
    get_sentiment (create_sentiment now oid col p).2 oid
      = .ok ⟨.strId oid,
          { user_id := p.user_id, emotion := p.emotion,
            intensity := p.intensity, note := p.note,
            timestamp := p.timestamp.getD now, context := p.context }⟩ ∧
    (p.timestamp = none → p.timestamp.getD now = now) := by
  have hval : validateSentiment now p = .ok
      { user_id := p.user_id, emotion := p.emotion, intensity := p.intensity,
        note := p.note, timestamp := p.timestamp.getD now,
        context := p.context } := by
    unfold validateSentiment
    rw [if_pos hrange]
  have hfind := mongoFindOne_append_fresh col oid
      ({ user_id := p.user_id, emotion := p.emotion, intensity := p.intensity,
         note := p.note, timestamp := p.timestamp.getD now,
         context := p.context } : SentimentDoc) hfresh
  refine ⟨?_, ?_, ?_⟩
  · simp [create_sentiment, hval]
  · have h2 : (create_sentiment now oid col p).2
        = col ++ [⟨oid,
            { user_id := p.user_id, emotion := p.emotion,
              intensity := p.intensity, note := p.note,
              timestamp := p.timestamp.getD now, context := p.context }⟩] := by
      simp [create_sentiment, hval]
    rw [h2]
    simp [get_sentiment, getOneEndpoint, getOneTry, hoid, hfind, stringifyId]
  · intro h
    rw [h]
    rfl

/-- C8 witness: the concrete round-trip of
`{user_id:"u1", emotion:"happy", intensity:1}` at server clock 99. -/
theorem C8_create_then_find_one_witness :
    (create_sentiment 99 "abcdefabcdefabcdefabcdef" []
        { user_id := "u1", emotion := "happy", intensity := 1 }).1
      = .ok "abcdefabcdefabcdefabcdef" ∧
    get_sentiment (create_sentiment 99 "abcdefabcdefabcdefabcdef" []
        { user_id := "u1", emotion := "happy", intensity := 1 }).2
        "abcdefabcdefabcdefabcdef"
      = .ok ⟨.strId "abcdefabcdefabcdefabcdef",
          { user_id := "u1", emotion := "happy", intensity := 1, note := none,
            timestamp := 99, context := none }⟩ := by
  have h := C8_create_then_find_one 99 "abcdefabcdefabcdefabcdef" []
      { user_id := "u1", emotion := "happy", intensity := 1 }
      (by decide) (by decide) (by decide)
  exact ⟨h.1, h.2.1⟩

/-- C10: every read path — the three list endpoints, the three
single-record endpoints, and the bulk export — returns documents whose
`_id` has been converted to string form; no raw store identifier is ever
returned. -/
theorem C10_ids_string_form (vc : List (DbDoc VlogDoc))
    (sc : List (DbDoc SentimentDoc)) (gc : List (DbDoc GPSDoc))
    (uid : Option String) (lim : Int) (s : String) :
    allStrIds (get_vlogs vc uid lim) = true ∧
    allStrIds (get_sentiments sc uid lim) = true ∧
    allStrIds (get_gps_coordinates gc uid lim) = true ∧
    (∀ d, get_vlog vc s = .ok d → isStrId d.mongoId = true) ∧
    (∀ d, get_sentiment sc s = .ok d → isStrId d.mongoId = true) ∧
    (∀ d, get_gps_coordinate gc s = .ok d → isStrId d.mongoId = true) ∧
    allStrIds (export_all_data vc sc gc).vlogs = true ∧
    allStrIds (export_all_data vc sc gc).sentiments = true ∧
    allStrIds (export_all_data vc sc gc).gps_coordinates = true :=
  ⟨allStrIds_map_stringifyId _, allStrIds_map_stringifyId _,
   allStrIds_map_stringifyId _,
   fun _ h => getOneEndpoint_ok_strId _ _ _ h,
   fun _ h => getOneEndpoint_ok_strId _ _ _ h,
   fun _ h => getOneEndpoint_ok_strId _ _ _ h,
   allStrIds_map_stringifyId _, allStrIds_map_stringifyId _,
   allStrIds_map_stringifyId _⟩

/-- C10 witness: a concrete single-record lookup returns a document whose
`_id` is in string form. -/
theorem C10_ids_string_form_witness :
    isStrId (ApiDoc.mongoId (α := VlogDoc)
      ⟨.strId "eeeeeeeeeeeeeeeeeeeeeeee",
        { user_id := "u1", video_url := "v", timestamp := 0 }⟩) = true := by
  have h := C10_ids_string_form
      [⟨"eeeeeeeeeeeeeeeeeeeeeeee",
        { user_id := "u1", video_url := "v", timestamp := 0 }⟩]
      [] [] none 100 "eeeeeeeeeeeeeeeeeeeeeeee"
  exact h.2.2.2.1 _ rfl

end EmoGo
